import Mathlib

/-!
Shallow embedding of `github_scrapper.py` (class `GitHubScraper`), the single
source file of this repository.  Scalar JSON-ish values are modelled by
`SValue`, a parsed JSON object body by an association list `RawRecord`,
and the server side of one `make_request` call by a script mapping the
index of each issued HTTP request to its outcome.
-/

set_option maxRecDepth 4000

/-- Scalar values appearing in parsed JSON bodies and Python expressions:
`null` models Python `None`. -/
inductive SValue where
  | null
  | str (s : String)
  | int (n : Int)
  | bool (b : Bool)
deriving DecidableEq, Repr

/-- A parsed JSON object (a Python dict with string keys), first binding wins. -/
abbrev RawRecord := List (String × SValue)

/-- One HTTP response as `make_request` observes it: the status code, whether
the lower-cased body text contains the rate-limit message, the two optional
quota headers, and the parsed JSON body. -/
structure Resp where
  status : Nat
  rateLimitText : Bool
  remainingHdr : Option Nat
  resetHdr : Option Nat
  body : RawRecord
deriving DecidableEq, Repr

/-- What one call to `requests.get` does: raise a timeout, raise another
transport error, or deliver a response. -/
inductive Outcome where
  | timeout
  | netError
  | response (r : Resp)

/-- State kept by `update_rate_limit_info`: `remaining = none` models the
initial `float(\x27inf\x27)` value of `rate_limit_remaining`. -/
structure QuotaState where
  remaining : Option Nat
  reset : Nat
deriving DecidableEq, Repr

/-- `update_rate_limit_info` (lines 36-40): both fields are unconditionally
overwritten from the response headers, an absent header being read as `0`. -/
def updateRateLimitInfo (st : QuotaState) (r : Resp) : QuotaState :=
  { remaining := some (r.remainingHdr.getD 0), reset := r.resetHdr.getD 0 }

/-- Exceptions that can escape `make_request`: a re-raised `HTTPError` from
`raise_for_status` carrying the status, or a re-raised transport error. -/
inductive PyErr where
  | httpError (status : Nat)
  | netError
deriving DecidableEq, Repr

/-- Observable result of one `make_request` call: the returned value or the
raised exception, the final quota state, the list of sleep durations in
order, and the number of HTTP requests issued. -/
structure ReqOut where
  result : Except PyErr RawRecord
  quota : QuotaState
  sleeps : List Nat
  requests : Nat
deriving Repr

/-- The `for attempt in range(max_retries)` loop of `make_request`
(lines 49-82), with `fuel` the number of loop iterations left and `wait`
the current `wait_time`.  Falling out of the loop returns the empty dict
(line 82).  `continue` on 403-rate-limit and 202 advances the `for` loop,
so it consumes fuel; the timeout handler sleeps and never re-raises; any
other `RequestException` (including `HTTPError` from `raise_for_status`)
re-raises only on the last iteration. -/
def makeRequestLoop (script : Nat → Outcome) (now : Nat) :
    Nat → Nat → QuotaState → List Nat → Nat → ReqOut
  | 0, _, qs, sleeps, reqs =>
      { result := Except.ok [], quota := qs, sleeps := sleeps, requests := reqs }
  | fuel + 1, wait, qs, sleeps, reqs =>
      match script reqs with
      | Outcome.timeout =>
          makeRequestLoop script now fuel (wait * 2) qs (sleeps ++ [wait]) (reqs + 1)
      | Outcome.netError =>
          if fuel = 0 then
            { result := Except.error PyErr.netError, quota := qs,
              sleeps := sleeps, requests := reqs + 1 }
          else
            makeRequestLoop script now fuel (wait * 2) qs (sleeps ++ [wait]) (reqs + 1)
      | Outcome.response r =>
          let qs2 := updateRateLimitInfo qs r
          if r.status = 403 ∧ r.rateLimitText = true then
            makeRequestLoop script now fuel wait qs2
              (sleeps ++ [qs2.reset - now + 1]) (reqs + 1)
          else if r.status = 202 then
            makeRequestLoop script now fuel wait qs2 (sleeps ++ [2]) (reqs + 1)
          else if 400 ≤ r.status then
            if fuel = 0 then
              { result := Except.error (PyErr.httpError r.status), quota := qs2,
                sleeps := sleeps, requests := reqs + 1 }
            else
              makeRequestLoop script now fuel (wait * 2) qs2 (sleeps ++ [wait]) (reqs + 1)
          else
            { result := Except.ok r.body, quota := qs2,
              sleeps := sleeps, requests := reqs + 1 }

/-- `make_request` (lines 44-82): `max_retries = 3`, initial `wait_time = 1`;
`now` is the (fixed) value of `time.time()` used in the quota sleep. -/
def makeRequest (script : Nat → Outcome) (qs : QuotaState) (now : Nat) : ReqOut :=
  makeRequestLoop script now 3 1 qs [] 0

/-- The scraper's initial quota state (lines 22-23). -/
def qs0 : QuotaState := { remaining := none, reset := 0 }

/-- Server script in which every request times out. -/
def timeoutScript : Nat → Outcome := fun _ => Outcome.timeout

/-- A 403 response whose body text contains the rate-limit message. -/
def quotaResp : Resp :=
  { status := 403, rateLimitText := true, remainingHdr := some 0,
    resetHdr := some 50, body := [] }

/-- Body of a successful response, distinguishable from the empty dict. -/
def okBody : RawRecord := [("ok", SValue.bool true)]

/-- A successful 200 response. -/
def okResp : Resp :=
  { status := 200, rateLimitText := false, remainingHdr := some 99,
    resetHdr := some 50, body := okBody }

/-- Server script: `n` quota-exceeded responses, then successes. -/
def quotaScript (n : Nat) : Nat → Outcome :=
  fun i => if i < n then Outcome.response quotaResp else Outcome.response okResp

/-- A 404 response. -/
def nfResp : Resp :=
  { status := 404, rateLimitText := false, remainingHdr := some 42,
    resetHdr := some 50, body := [] }

/-- Server script: one 404 response, then successes. -/
def notFoundScript : Nat → Outcome :=
  fun i => if i = 0 then Outcome.response nfResp else Outcome.response okResp

/-- Server script answering 404 to every request. -/
def all404Script : Nat → Outcome := fun _ => Outcome.response nfResp

/-- A 200 response carrying no quota headers. -/
def noHdrResp : Resp :=
  { status := 200, rateLimitText := false, remainingHdr := none,
    resetHdr := none, body := okBody }

/-- One page of the search endpoint as `fetch_users` reads it: the `items`
list (record identity is immaterial, so items are bare naturals) and the
`total_count` field (`0` when absent). -/
structure SearchPage where
  items : List Nat
  total_count : Nat

/-- The `while True` loop of `fetch_users` (lines 107-132).  `server` maps a
page number to the page the API returns for it, `fuel` bounds the loop
(the real loop can iterate at most 11 times, see `fetchUsers`), and the
result is the accumulated users together with the number of page requests
issued.  The loop breaks before extending when `items` is empty or absent,
records `total_count` (capped at 1000) only on page 1, and breaks after
extending when the page is short or the running total reached the cap. -/
def fetchUsersAux (server : Nat → SearchPage) :
    Nat → Nat → List Nat → Nat → Nat → List Nat × Nat
  | 0, _, users, _, reqs => (users, reqs)
  | fuel + 1, page, users, tc, reqs =>
      if (server page).items = [] then (users, reqs + 1)
      else
        if (server page).items.length < 100 ∨
            (if page = 1 then min (server page).total_count 1000 else tc) ≤
              (users ++ (server page).items).length then
          (users ++ (server page).items, reqs + 1)
        else
          fetchUsersAux server fuel (page + 1) (users ++ (server page).items)
            (if page = 1 then min (server page).total_count 1000 else tc) (reqs + 1)

/-- `fetch_users` (lines 101-134): start at page 1 with no users.  Fuel 20 is
enough for any server: after page 1 the cap `tc ≤ 1000` is fixed and every
continuing iteration adds exactly 100 users, so at most 11 iterations run. -/
def fetchUsers (server : Nat → SearchPage) : List Nat × Nat :=
  fetchUsersAux server 20 1 [] 0 0

/-- A search server holding `total` records in all, serving them in full
pages of 100, and reporting `reported` in the `total_count` field. -/
def searchServer (total reported : Nat) : Nat → SearchPage :=
  fun page =>
    { items := List.replicate (min 100 (total - (page - 1) * 100)) 0,
      total_count := reported }

/-- Python `str.strip()` on a character list: drop whitespace from both ends. -/
def trimList (l : List Char) : List Char :=
  ((l.dropWhile Char.isWhitespace).reverse.dropWhile Char.isWhitespace).reverse

/-- Whether the first list is an initial segment of the second
(Python `str.startswith`). -/
def startsL : List Char → List Char → Bool
  | [], _ => true
  | _ :: _, [] => false
  | p :: ps, c :: cs => p == c && startsL ps cs

/-- Python `s[len(p):] if s.startswith(p) else s`. -/
def stripLead (p c : List Char) : List Char :=
  if startsL p c then c.drop p.length else c

/-- Python `s[:-len(d)] if s.endswith(d) else s` (`endswith` via reversal). -/
def stripTrail (d c : List Char) : List Char :=
  if startsL d.reverse c.reverse then c.take (c.length - d.length) else c

/-- Core of `clean_company_name` (lines 89-99) on an actual string: strip,
uppercase (`Char.toUpper` is ASCII uppercasing, agreeing with Python
`str.upper` on the ASCII inputs in play), strip each of the four leading
markers at most once in listed order, strip each of the five domain
endings at most once in listed order, strip again. -/
def canonList (l : List Char) : List Char :=
  let c1 := (trimList l).map Char.toUpper
  let c2 := [String.toList "@", String.toList "HTTP://", String.toList "HTTPS://",
      String.toList "WWW."].foldl (fun c p => stripLead p c) c1
  let c3 := [String.toList ".COM", String.toList ".ORG", String.toList ".NET",
      String.toList ".CO", String.toList ".IO"].foldl (fun c d => stripTrail d c) c2
  trimList c3

/-- `clean_company_name`'s string pipeline at the `String` interface. -/
def canonStr (s : String) : String :=
  String.mk (canonList s.toList)

/-- Python truthiness of an `SValue` (`if not company`, `bool(...)`). -/
def pyTruthy : SValue → Bool
  | SValue.null => false
  | SValue.str s => s != ""
  | SValue.int n => n != 0
  | SValue.bool b => b

/-- Python `int(...)` coercion on an `SValue`; `none` models the raised
`TypeError`/`ValueError` (in particular `int(None)` raises). -/
def pyInt : SValue → Option Int
  | SValue.int n => some n
  | SValue.bool b => some (if b then 1 else 0)
  | SValue.str s => s.toInt?
  | SValue.null => none

/-- Python `dict.get(k, dflt)`: the stored value when the key is present
(even when that value is `null`), the default otherwise. -/
def pyGet (raw : RawRecord) (k : String) (dflt : SValue) : SValue :=
  (raw.lookup k).getD dflt

/-- `clean_company_name` (lines 84-99): a falsy argument returns `""`
before any string method is reached; a truthy non-string raises
(`none`); a non-empty string is canonicalized. -/
def cleanCompanyName (company : SValue) : Option String :=
  if pyTruthy company = false then some ""
  else
    match company with
    | SValue.str s => some (canonStr s)
    | _ => none

/-- The record built by `fetch_user_details` (lines 142-154).  The plain
string fields hold whatever `dict.get` produced (so they can be `null`);
`company`, `hireable` and the three counters are coerced. -/
structure NormRecord where
  login : SValue
  name : SValue
  company : String
  location : SValue
  email : SValue
  hireable : Bool
  bio : SValue
  public_repos : Int
  followers : Int
  following : Int
  created_at : SValue
deriving DecidableEq, Repr

/-- `fetch_user_details` (lines 136-154) applied to the parsed body that
`make_request` returned; `none` models a raised coercion error. -/
def fetchUserDetails (raw : RawRecord) : Option NormRecord := do
  let comp ← cleanCompanyName (pyGet raw "company" SValue.null)
  let pr ← pyInt (pyGet raw "public_repos" (SValue.int 0))
  let fr ← pyInt (pyGet raw "followers" (SValue.int 0))
  let fg ← pyInt (pyGet raw "following" (SValue.int 0))
  some
    { login := pyGet raw "login" (SValue.str ""),
      name := pyGet raw "name" (SValue.str ""),
      company := comp,
      location := pyGet raw "location" (SValue.str ""),
      email := pyGet raw "email" (SValue.str ""),
      hireable := pyTruthy (pyGet raw "hireable" SValue.null),
      bio := pyGet raw "bio" (SValue.str ""),
      public_repos := pr,
      followers := fr,
      following := fg,
      created_at := pyGet raw "created_at" (SValue.str "") }

/-- The all-defaults normalized record. -/
def defaultNorm : NormRecord :=
  { login := SValue.str "", name := SValue.str "", company := "",
    location := SValue.str "", email := SValue.str "", hireable := false,
    bio := SValue.str "", public_repos := 0, followers := 0, following := 0,
    created_at := SValue.str "" }

/-- The source keys `fetch_user_details` reads from the raw record. -/
def userFieldKeys : List String :=
  ["login", "name", "company", "location", "email", "hireable", "bio",
   "public_repos", "followers", "following", "created_at"]

/-- A user record as `analyze_data` reads it (only `hireable` is used). -/
structure AUser where
  hireable : Bool
deriving DecidableEq, Repr

/-- A repository record as `analyze_data` reads it. -/
structure ARepo where
  login : String
  full_name : String
  stargazers_count : Int
  language : String
deriving DecidableEq, Repr

/-- One step of the `most_starred_repo` scan (lines 224-226): strict
greater-than against the running maximum, so ties keep the earlier record. -/
def msStep (p : Int × String) (r : ARepo) : Int × String :=
  if r.stargazers_count > p.1 then (r.stargazers_count, r.full_name) else p

/-- Running maximum of `stargazers_count` over a list, seeded with `m`. -/
def maxFrom (m : Int) (l : List ARepo) : Int :=
  l.foldl (fun a r => max a r.stargazers_count) m

/-- Python `d[k] = d.get(k, 0) + 1` on an insertion-ordered dict. -/
def bump : List (String × Nat) → String → List (String × Nat)
  | [], k => [(k, 1)]
  | (k', n) :: t, k => if k' = k then (k', n + 1) :: t else (k', n) :: bump t k

/-- Python `max(items, key=lambda x: x[1])[0]` over a nonempty assoc list:
strict comparison, so the first maximal entry wins. -/
def firstMaxKey : List (String × Nat) → String
  | [] => ""
  | h :: t => (t.foldl (fun p q => if q.2 > p.2 then q else p) h).1

/-- The analysis dict built by `analyze_data` (lines 198-231). -/
structure Analysis where
  total_users : Nat
  total_repos : Nat
  hireable_users : Nat
  languages : List (String × Nat)
  avg_stars_per_repo : Rat
  most_active_user : String
  most_starred_repo : String
deriving DecidableEq, Repr

/-- `analyze_data` (lines 198-231): language distribution with the
`Unknown` bucket for falsy languages, guarded average, first-max user by
repo count, and the strict-greater most-starred scan seeded with `(0, "")`. -/
def analyzeData (users : List AUser) (repos : List ARepo) : Analysis :=
  { total_users := users.length,
    total_repos := repos.length,
    hireable_users := users.countP (fun u => u.hireable),
    languages := repos.foldl
      (fun d r => bump d (if r.language = "" then "Unknown" else r.language)) [],
    avg_stars_per_repo :=
      if repos = [] then 0
      else ((repos.foldl (fun a r => a + r.stargazers_count) 0 : Int) : Rat) /
        (repos.length : Rat),
    most_active_user :=
      if repos.foldl (fun d r => bump d r.login) [] = [] then ""
      else firstMaxKey (repos.foldl (fun d r => bump d r.login) []),
    most_starred_repo := (repos.foldl msStep (0, "")).2 }

/-- A raw record of a real user all of whose fields are present but empty. -/
def emptyUserRecord : RawRecord :=
  [("login", SValue.str ""), ("name", SValue.str ""), ("company", SValue.null),
   ("location", SValue.str ""), ("email", SValue.str ""), ("hireable", SValue.null),
   ("bio", SValue.str ""), ("public_repos", SValue.int 0),
   ("followers", SValue.int 0), ("following", SValue.int 0),
   ("created_at", SValue.str "")]

theorem maxFrom_cons (m : Int) (r : ARepo) (t : List ARepo) :
    maxFrom m (r :: t) = maxFrom (max m r.stargazers_count) t := rfl

theorem msFold_cons (p : Int × String) (r : ARepo) (t : List ARepo) :
    (r :: t).foldl msStep p = t.foldl msStep (msStep p r) := rfl

theorem msFold_const (t : List ARepo) :
    ∀ (m : Int) (s : String), (∀ r ∈ t, r.stargazers_count ≤ m) →
      t.foldl msStep (m, s) = (m, s) := by
  induction t with
  | nil => intro m s _; rfl
  | cons r t ih =>
    intro m s h
    rw [msFold_cons]
    have hr : r.stargazers_count ≤ m := h r (List.mem_cons_self r t)
    have hstep : msStep (m, s) r = (m, s) := by
      simp [msStep, not_lt_of_le hr]
    rw [hstep]
    exact ih m s fun x hx => h x (List.mem_cons_of_mem r hx)

theorem maxFrom_const (t : List ARepo) :
    ∀ m : Int, (∀ r ∈ t, r.stargazers_count ≤ m) → maxFrom m t = m := by
  induction t with
  | nil => intro m _; rfl
  | cons r t ih =>
    intro m h
    rw [maxFrom_cons, max_eq_left (h r (List.mem_cons_self r t))]
    exact ih m fun x hx => h x (List.mem_cons_of_mem r hx)

theorem le_maxFrom (t : List ARepo) : ∀ m : Int, m ≤ maxFrom m t := by
  induction t with
  | nil => intro m; exact le_refl m
  | cons r t ih =>
    intro m
    rw [maxFrom_cons]
    exact le_trans (le_max_left _ _) (ih _)

theorem lt_maxFrom (t : List ARepo) :
    ∀ m : Int, (∃ r ∈ t, m < r.stargazers_count) → m < maxFrom m t := by
  induction t with
  | nil => intro m h; simp at h
  | cons r t ih =>
    intro m h
    rw [maxFrom_cons]
    rcases h with ⟨r', hmem, hlt⟩
    rcases List.mem_cons.mp hmem with h1 | h2
    · subst h1
      exact lt_of_lt_of_le (lt_max_of_lt_right hlt) (le_maxFrom t _)
    · by_cases hc : m < r.stargazers_count
      · exact lt_of_lt_of_le (lt_max_of_lt_right hc) (le_maxFrom t _)
      · rw [max_eq_left (le_of_not_lt hc)]
        exact ih m ⟨r', h2, hlt⟩

theorem msFold_find (t : List ARepo) :
    ∀ (m : Int) (s : String) (r0 : ARepo),
      (∃ r ∈ t, m < r.stargazers_count) →
      t.find? (fun r => r.stargazers_count == maxFrom m t) = some r0 →
      (t.foldl msStep (m, s)).2 = r0.full_name := by
  induction t with
  | nil => intro m s r0 h _; simp at h
  | cons r t ih =>
    intro m s r0 h hf
    by_cases hrm : m < r.stargazers_count
    · have hmaxc : maxFrom m (r :: t) = maxFrom r.stargazers_count t := by
        rw [maxFrom_cons, max_eq_right (le_of_lt hrm)]
      have hstep : msStep (m, s) r = (r.stargazers_count, r.full_name) := by
        simp [msStep, hrm]
      rw [msFold_cons, hstep]
      by_cases ht : ∃ r' ∈ t, r.stargazers_count < r'.stargazers_count
      · have hlt : r.stargazers_count < maxFrom r.stargazers_count t :=
          lt_maxFrom t _ ht
        have hne : (r.stargazers_count == maxFrom m (r :: t)) = false := by
          rw [hmaxc]
          simp [ne_of_lt hlt]
        simp only [List.find?_cons, hne] at hf
        rw [hmaxc] at hf
        exact ih _ _ r0 ht hf
      · push_neg at ht
        have hmax : maxFrom m (r :: t) = r.stargazers_count := by
          rw [hmaxc]
          exact maxFrom_const t _ ht
        have hpos : (r.stargazers_count == maxFrom m (r :: t)) = true := by
          rw [hmax]
          simp
        simp only [List.find?_cons, hpos, Option.some.injEq] at hf
        subst hf
        rw [msFold_const t _ _ ht]
    · have hrm' : r.stargazers_count ≤ m := le_of_not_lt hrm
      rcases h with ⟨r', hmem, hlt⟩
      have hmem' : r' ∈ t := by
        rcases List.mem_cons.mp hmem with h1 | h2
        · subst h1; exact absurd hlt (not_lt_of_le hrm')
        · exact h2
      have ht : ∃ x ∈ t, m < x.stargazers_count := ⟨r', hmem', hlt⟩
      have hmaxc : maxFrom m (r :: t) = maxFrom m t := by
        rw [maxFrom_cons, max_eq_left hrm']
      have hne : (r.stargazers_count == maxFrom m (r :: t)) = false := by
        rw [hmaxc]
        have : r.stargazers_count < maxFrom m t :=
          lt_of_le_of_lt hrm' (lt_maxFrom t m ht)
        simp [ne_of_lt this]
      simp only [List.find?_cons, hne] at hf
      rw [hmaxc] at hf
      have hstep : msStep (m, s) r = (m, s) := by
        simp [msStep, not_lt_of_le hrm']
      rw [msFold_cons, hstep]
      exact ih m s r0 ht hf

/-- C1: the claim says three consecutive timeouts end in a raised
`RequestFailed` and never a normal return.  In the code the `Timeout`
handler only sleeps and never re-raises, so after the third timeout the
loop falls through and `make_request` returns the empty dict as a normal
value. -/
theorem makeRequest_timeouts_cex :
    (makeRequest timeoutScript qs0 40).result = Except.ok [] := rfl

/-- C1 (amended): on three consecutive timeouts the requester performs
exactly 3 attempts, sleeps 1s, 2s and 4s (the third sleep after the final
attempt), leaves the quota state untouched, and then returns the empty
mapping as a normal value instead of raising. -/
theorem makeRequest_timeouts_amended :
    makeRequest timeoutScript qs0 40 =
      { result := Except.ok [], quota := qs0, sleeps := [1, 2, 4], requests := 3 } := rfl

/-- C2: the claim says a quota-exceeded response is retried without
consuming an attempt, so any number of them followed by a success still
succeeds.  In the code `continue` advances `for attempt in range(3)`, so
three quota-exceeded responses exhaust the budget: only 3 requests are
issued, the waiting success response is never fetched, and the call
returns the empty dict (which differs from the success body). -/
theorem quota_consumes_attempts_cex :
    makeRequest (quotaScript 3) qs0 40 =
      { result := Except.ok [], quota := { remaining := some 0, reset := 50 },
        sleeps := [11, 11, 11], requests := 3 } ∧
    okBody ≠ [] := ⟨rfl, by decide⟩

/-- C2 (amended): a quota-exceeded response sleeps `(reset − now) + 1`
seconds and retries, but the retry consumes an attempt: with `n ≤ 2`
quota-exceeded responses followed by a success the call succeeds after
`n + 1` requests, while 3 consecutive quota-exceeded responses exhaust
the budget and the call returns the empty mapping without issuing any
further request. -/
theorem quota_retry_amended :
    (∀ n : Nat, n < 3 → makeRequest (quotaScript n) qs0 40 =
      { result := Except.ok okBody, quota := { remaining := some 99, reset := 50 },
        sleeps := List.replicate n 11, requests := n + 1 }) ∧
    makeRequest (quotaScript 3) qs0 40 =
      { result := Except.ok [], quota := { remaining := some 0, reset := 50 },
        sleeps := [11, 11, 11], requests := 3 } := by
  constructor
  · intro n hn
    interval_cases n <;> rfl
  · rfl

/-- C2 (witness): two quota-exceeded responses before the success still
consume two attempts and the call succeeds on the third request. -/
theorem quota_retry_amended_witness :
    makeRequest (quotaScript 2) qs0 40 =
      { result := Except.ok okBody, quota := { remaining := some 99, reset := 50 },
        sleeps := [11, 11], requests := 3 } :=
  quota_retry_amended.1 2 (by decide)

/-- C3: the claim says a 404 on the first attempt fails immediately with
no further attempt and no sleep.  In the code `raise_for_status` raises
an `HTTPError`, which the generic `RequestException` handler catches and
retries: a 404 followed by a success yields a successful call after 2
requests and one 1-second backoff sleep. -/
theorem notFound_retried_cex :
    makeRequest notFoundScript qs0 40 =
      { result := Except.ok okBody, quota := { remaining := some 99, reset := 50 },
        sleeps := [1], requests := 2 } := rfl

/-- C3 (amended): a non-2xx status other than 403-rate-limit and 202 is
caught and retried with exponential backoff (sleeps 1s, 2s); only when it
still occurs on the final (third) attempt does the call fail by
propagating the error carrying that status, with no sleep after the last
attempt. -/
theorem http_error_retry_amended :
    makeRequest all404Script qs0 40 =
      { result := Except.error (PyErr.httpError 404),
        quota := { remaining := some 42, reset := 50 },
        sleeps := [1, 2], requests := 3 } := rfl

/-- C4: search-style enumeration with page size 100.  A server with 250
records (reporting `total_count = 250`) is drained in exactly 3 page
requests yielding exactly 250 records; a server reporting 1500 is capped
at 1000, drained in exactly 10 page requests yielding exactly 1000
records; and the loop stops exactly when a page is empty, is shorter
than 100 items, or the running total reaches `min(total_count, 1000)`. -/
theorem fetchUsers_pagination :
    (fetchUsers (searchServer 250 250)).2 = 3 ∧
    (fetchUsers (searchServer 250 250)).1.length = 250 ∧
    (fetchUsers (searchServer 1500 1500)).2 = 10 ∧
    (fetchUsers (searchServer 1500 1500)).1.length = 1000 ∧
    (∀ (server : Nat → SearchPage) (fuel page : Nat) (users : List Nat) (tc reqs : Nat),
      (server page).items = [] →
      fetchUsersAux server (fuel + 1) page users tc reqs = (users, reqs + 1)) ∧
    (∀ (server : Nat → SearchPage) (fuel page : Nat) (users : List Nat) (tc reqs : Nat),
      (server page).items ≠ [] →
      (server page).items.length < 100 →
      fetchUsersAux server (fuel + 1) page users tc reqs =
        (users ++ (server page).items, reqs + 1)) ∧
    (∀ (server : Nat → SearchPage) (fuel page : Nat) (users : List Nat) (tc reqs : Nat),
      (server page).items ≠ [] →
      (if page = 1 then min (server page).total_count 1000 else tc) ≤
        (users ++ (server page).items).length →
      fetchUsersAux server (fuel + 1) page users tc reqs =
        (users ++ (server page).items, reqs + 1)) := by
  refine ⟨rfl, rfl, rfl, rfl, ?_, ?_, ?_⟩
  · intro server fuel page users tc reqs h
    simp [fetchUsersAux, h]
  · intro server fuel page users tc reqs h1 h2
    simp [fetchUsersAux, h1, h2]
  · intro server fuel page users tc reqs h1 h2
    simp [fetchUsersAux, h1]
    intro _ h3
    rw [List.length_append] at h2
    exact absurd h3 (not_lt_of_le h2)

/-- C4 (witness): the three stop rules at concrete inputs: an empty page,
a 3-item page, and a full page on page 1 with a reported total of 50. -/
theorem fetchUsers_pagination_witness :
    fetchUsersAux (fun _ => ⟨[], 7⟩) 1 5 [3] 9 4 = ([3], 5) ∧
    fetchUsersAux (fun _ => ⟨[1, 2, 3], 0⟩) 1 2 [] 0 0 = ([1, 2, 3], 1) ∧
    fetchUsersAux (fun _ => ⟨List.replicate 100 0, 50⟩) 1 1 [] 0 0 =
      (List.replicate 100 0, 1) :=
  ⟨fetchUsers_pagination.2.2.2.2.1 _ 0 5 [3] 9 4 rfl,
   fetchUsers_pagination.2.2.2.2.2.1 _ 0 2 [] 0 0 (by decide) (by decide),
   fetchUsers_pagination.2.2.2.2.2.2 _ 0 1 [] 0 0 (by decide) (by decide)⟩

/-- C5: the claim says the canonicalization is idempotent for every input
string.  It is not: each leading marker is stripped at most once per
application, so `canon("@@x") = "@X"` while `canon(canon("@@x")) = "X"`. -/
theorem canon_not_idempotent_cex :
    canonStr "@@x" = "@X" ∧ canonStr (canonStr "@@x") = "X" ∧
    ("X" : String) ≠ "@X" := by
  refine ⟨by decide, by decide, by decide⟩

/-- C5 (amended): the canonicalization is total, with
`canon(None) = canon("") = ""`, `canon("@Acme.com") = "ACME"` and
`canon("https://WWW.Foo.io") = "FOO"`, and it is idempotent on these
tested inputs; it is not idempotent for all strings, because each listed
leading marker and domain ending is stripped at most once per
application. -/
theorem canon_values_amended :
    cleanCompanyName SValue.null = some "" ∧
    cleanCompanyName (SValue.str "") = some "" ∧
    cleanCompanyName (SValue.str "@Acme.com") = some "ACME" ∧
    cleanCompanyName (SValue.str "https://WWW.Foo.io") = some "FOO" ∧
    canonStr (canonStr "") = canonStr "" ∧
    canonStr (canonStr "@Acme.com") = canonStr "@Acme.com" ∧
    canonStr (canonStr "https://WWW.Foo.io") = canonStr "https://WWW.Foo.io" := by
  refine ⟨by decide, by decide, by decide, by decide, by decide, by decide, by decide⟩

/-- C6: the claim says no field of the normalized record is ever null.
A source field that is present with a null value is passed through by
`dict.get` untouched: a raw record with `name: null` normalizes to a
record whose `name` field is null, and a null `public_repos` makes the
`int(...)` coercion raise instead of defaulting. -/
theorem norm_null_passthrough_cex :
    (fetchUserDetails [("name", SValue.null)]).map NormRecord.name =
      some SValue.null ∧
    fetchUserDetails [("public_repos", SValue.null)] = none := by
  refine ⟨by decide, by decide⟩

/-- C6 (amended): a source field that is absent from the raw record is
mapped to its type-appropriate default (empty string, zero, false): a raw
record containing none of the schema's source keys normalizes to the
all-defaults record, with no field null or absent.  The no-null guarantee
holds only for absent fields: a field present with a null value passes
through as null (string fields) or faults (integer fields). -/
theorem norm_missing_defaults_amended (raw : RawRecord)
    (h : ∀ k ∈ userFieldKeys, raw.lookup k = none) :
    fetchUserDetails raw = some defaultNorm := by
  have hc := h "company" (by decide)
  have hpr := h "public_repos" (by decide)
  have hfr := h "followers" (by decide)
  have hfg := h "following" (by decide)
  have hl := h "login" (by decide)
  have hn := h "name" (by decide)
  have hloc := h "location" (by decide)
  have he := h "email" (by decide)
  have hh := h "hireable" (by decide)
  have hb := h "bio" (by decide)
  have hca := h "created_at" (by decide)
  simp [fetchUserDetails, pyGet, hc, hpr, hfr, hfg, hl, hn, hloc, he, hh, hb, hca,
    cleanCompanyName, pyTruthy, pyInt, defaultNorm]

/-- C6 (witness): a raw record with only an unrelated key normalizes to
the all-defaults record. -/
theorem norm_missing_defaults_witness :
    fetchUserDetails [("x", SValue.int 3)] = some defaultNorm :=
  norm_missing_defaults_amended [("x", SValue.int 3)] (by decide)

/-- C7: the claim says for every non-empty repository list the reported
extremal is the first record attaining the maximum metric.  The running
maximum starts at `0`, so on a list whose only record has 0 stars no
record ever compares strictly greater: the first (and only) record
attains the maximum yet the sentinel empty string is reported. -/
theorem most_starred_zero_cex :
    (analyzeData [] [(⟨"u", "a", 0, "L"⟩ : ARepo)]).most_starred_repo = "" ∧
    [(⟨"u", "a", 0, "L"⟩ : ARepo)].find?
      (fun r => r.stargazers_count == maxFrom 0 [(⟨"u", "a", 0, "L"⟩ : ARepo)]) =
      some (⟨"u", "a", 0, "L"⟩ : ARepo) ∧
    ("" : String) ≠ "a" := by
  refine ⟨rfl, by decide, by decide⟩

/-- C7 (amended): for every repository list containing at least one
record with positive `stargazers_count`, the reported `most_starred_repo`
is the `full_name` of the first record in input order whose metric equals
the maximum metric of the list; in particular the earlier of two records
sharing the maximum wins.  When no record has a positive metric the
sentinel empty string is reported instead. -/
theorem most_starred_first_max_amended (users : List AUser) (repos : List ARepo)
    (r0 : ARepo) (hpos : ∃ r ∈ repos, 0 < r.stargazers_count)
    (hfind : repos.find? (fun r => r.stargazers_count == maxFrom 0 repos) = some r0) :
    (analyzeData users repos).most_starred_repo = r0.full_name := by
  have : (analyzeData users repos).most_starred_repo = (repos.foldl msStep (0, "")).2 := rfl
  rw [this]
  exact msFold_find repos 0 "" r0 hpos hfind

/-- C7 (witness): two records tie at 5 stars and the earlier one, "a",
is reported. -/
theorem most_starred_first_max_witness :
    (analyzeData [] [(⟨"u", "a", 5, "P"⟩ : ARepo), (⟨"v", "b", 5, "Q"⟩ : ARepo)]).most_starred_repo
      = "a" :=
  most_starred_first_max_amended []
    [(⟨"u", "a", 5, "P"⟩ : ARepo), (⟨"v", "b", 5, "Q"⟩ : ARepo)]
    (⟨"u", "a", 5, "P"⟩ : ARepo) (by decide) (by decide)

/-- C8: the claim says a response carrying no quota headers leaves the
previously recorded quota state unchanged.  In the code both fields are
unconditionally overwritten with `int(headers.get(..., 0))`, so a
header-less response resets the tracked state to zeros. -/
theorem quota_overwrite_cex :
    updateRateLimitInfo { remaining := some 5, reset := 99 } noHdrResp =
      { remaining := some 0, reset := 0 } ∧
    ({ remaining := some 0, reset := 0 } : QuotaState) ≠
      { remaining := some 5, reset := 99 } := by
  refine ⟨rfl, by decide⟩

/-- C8 (amended): every received response overwrites the tracked quota
state, headers present or not — present header values win (last observed
wins) and an absent header is recorded as 0, not kept; only the absence
of any response (here, a call whose every attempt times out before
headers arrive) leaves the prior state unchanged. -/
theorem quota_update_amended :
    (∀ (st : QuotaState) (r : Resp), updateRateLimitInfo st r =
      { remaining := some (r.remainingHdr.getD 0), reset := r.resetHdr.getD 0 }) ∧
    (∀ (st : QuotaState) (now : Nat), (makeRequest timeoutScript st now).quota = st) :=
  ⟨fun _ _ => rfl, fun _ _ => rfl⟩

/-- C9: `analyze_data` on the empty record set returns zero counts, an
empty language distribution and an average of 0, without any division
fault: the division is guarded by the emptiness test, so the initial 0
is returned untouched. -/
theorem analyze_empty_safe :
    analyzeData [] [] =
      { total_users := 0, total_repos := 0, hireable_users := 0, languages := [],
        avg_stars_per_repo := 0, most_active_user := "", most_starred_repo := "" } := rfl

/-- C10: a `make_request` call that exhausts its attempts on timeouts
returns the empty mapping as a normal value, and `fetch_user_details`
applied to that empty mapping signals no error: it returns the
all-defaults normalized record, which is exactly the record produced for
a real user all of whose fields are present but empty. -/
theorem empty_result_all_defaults :
    (makeRequest timeoutScript qs0 40).result = Except.ok ([] : RawRecord) ∧
    fetchUserDetails [] = some defaultNorm ∧
    fetchUserDetails emptyUserRecord = some defaultNorm := by
  refine ⟨rfl, by decide, by decide⟩
